import Mathlib

/-!
Shallow embedding of `src/pyfigure.py` (dash-hidrokit-rainfall): the
summary-figure composition engine.  Pure helpers (tick planning, color
cycling, string lowering, the trendline regex) are embedded as Lean
functions; pandas DataFrames become an explicit record of a time index
plus keyed integer columns; in-place DataFrame mutation is embedded by
explicit state passing over a heap of DataFrames (a list indexed by
references), so that frame claims about caller-visible mutation are
expressible.  Machine floats never decide any claim here; rainfall
values are carried as `Int` and the one mean computation as `Rat`.
-/

namespace PyFigure

/-! ## Generic list / string utilities mirroring the Python idioms used -/

/-- Python `list(OrderedDict.fromkeys(l))`: deduplicate keeping first-seen order
(`pyfigure.py` lines 223-224, 368-369, 514-515). -/
def dedupFirstSeen (l : List String) : List String :=
  l.foldl (fun acc s => if s ∈ acc then acc else acc ++ [s]) []

/-- Python slice `l[::2]`: every second element, starting at index 0
(`pyfigure.py` lines 265-266, 427-428). -/
def everySecond {α : Type} : List α → List α
  | [] => []
  | [x] => [x]
  | x :: _ :: xs => x :: everySecond xs

/-- Python `itertools.islice(itertools.cycle(l), n)` for a list of strings:
the first `n` elements of the infinite repetition of `l`; empty when `l` is
empty (`pyfigure.py` line 299). -/
def cycleTake (l : List String) (n : Nat) : List String :=
  if l.isEmpty then []
  else (List.range n).map (fun i => l.getD (i % l.length) (""))

/-- Python list repetition `l * m` (`pyfigure.py` lines 301, 459). -/
def pyMul {α : Type} (l : List α) : Nat → List α
  | 0 => []
  | m + 1 => l ++ pyMul l m

/-- ASCII lowercase of one character, as Python `str.lower` acts on the
ASCII letters used by the period strings. -/
def asciiLower (c : Char) : Char :=
  if 65 ≤ c.toNat ∧ c.toNat ≤ 90 then Char.ofNat (c.toNat + 32) else c

/-- Python `s.lower()` on an ASCII string. -/
def pyLowerStr (s : String) : String := String.mk (s.data.map asciiLower)

/-- Python `period.lower()` where `period : Optional[str]`: on `None` this
raises `AttributeError` (`pyfigure.py` lines 206, 255, 342, 417); embedded
as `Except`. -/
def pyLower : Option String → Except String String
  | none => Except.error ("AttributeError: NoneType has no attribute lower")
  | some s => Except.ok (pyLowerStr s)

/-! ## A heap of DataFrames: explicit state passing for in-place mutation -/

/-- Read a reference out of a heap of values. -/
def readH {α : Type} (h : List α) (r : Nat) : Option α := h[r]?

/-- Overwrite the value a reference points to. -/
def writeH {α : Type} (h : List α) (r : Nat) (v : α) : List α := h.set r v

/-- Allocate a fresh object (Python `df.copy()` allocates): returns the new
heap and the fresh reference. -/
def allocH {α : Type} (h : List α) (v : α) : List α × Nat := (h ++ [v], h.length)

/-! ## Dates and strftime formats used by the tick planner -/

/-- A calendar date, enough structure for the three `strftime` formats the
source uses. -/
structure Date where
  year : Nat
  month : Nat
  day : Nat
deriving DecidableEq, Repr

/-- Month abbreviation, as `%b`. -/
def monthAbbrev : Nat → String
  | 1 => "Jan" | 2 => "Feb" | 3 => "Mar" | 4 => "Apr" | 5 => "May" | 6 => "Jun"
  | 7 => "Jul" | 8 => "Aug" | 9 => "Sep" | 10 => "Oct" | 11 => "Nov" | 12 => "Dec"
  | _ => "???"

/-- Full month name, as `%B`. -/
def monthFull : Nat → String
  | 1 => "January" | 2 => "February" | 3 => "March" | 4 => "April"
  | 5 => "May" | 6 => "June" | 7 => "July" | 8 => "August"
  | 9 => "September" | 10 => "October" | 11 => "November" | 12 => "December"
  | _ => "???"

/-- Zero-padded two-digit day, as `%d`. -/
def pad2 (n : Nat) : String := if n < 10 then "0" ++ toString n else toString n

/-- Format `strftime` with `%d %b %Y` (`pyfigure.py` lines 253, 415). -/
def fmtDaily (d : Date) : String :=
  pad2 d.day ++ " " ++ monthAbbrev d.month ++ " " ++ toString d.year

/-- Format `strftime` with `%B %Y` (`pyfigure.py` lines 257, 419). -/
def fmtMonthly (d : Date) : String :=
  monthFull d.month ++ " " ++ toString d.year

/-- Format `strftime` with `%Y` (`pyfigure.py` lines 259, 421). -/
def fmtYearly (d : Date) : String := toString d.year

/-! ## The DataFrame model -/

/-- A pandas DataFrame with a time index and columns keyed by `κ`
(`κ = String × String` for the two-level (station, metric) summaries,
`κ = String` for the cumulative-sum frames).  Every column shares the
frame's index; cell values are carried as `Int`. -/
structure DFr (κ : Type) where
  index : List Date
  cols : List (κ × List Int)
deriving DecidableEq, Repr

/-- pandas `df.size`: number of rows times number of columns. -/
def DFr.size {κ : Type} (df : DFr κ) : Nat := df.index.length * df.cols.length

/-- The two-level summary table produced by the aggregation pipeline. -/
abbrev SummaryDF := DFr (String × String)

/-- Single-level cumulative-sum frame. -/
abbrev CumDF := DFr String

/-- Column lookup `df[key]`; `[]` stands for a column that is absent
(pandas would raise `KeyError`; every theorem below restricts itself to
present columns). -/
def getColK {κ : Type} [DecidableEq κ] (df : DFr κ) (key : κ) : List Int :=
  (((df.cols.find? (fun c => decide (c.1 = key))).map (fun c => c.2)).getD [])

/-- pandas column assignment `df[key] = vals`: replace the column in place
when the key exists, otherwise append it at the end of the column order. -/
def setColK {κ : Type} [DecidableEq κ] (df : DFr κ) (key : κ) (vals : List Int) : DFr κ :=
  if df.cols.any (fun c => decide (c.1 = key)) then
    { df with cols := df.cols.map (fun c => if c.1 = key then (key, vals) else c) }
  else
    { df with cols := df.cols ++ [(key, vals)] }

/-- Station labels in first-seen order
(`pyfigure.py` lines 223-224, 368-369). -/
def stationsOf (df : SummaryDF) : List String :=
  dedupFirstSeen (df.cols.map (fun c => c.1.1))

/-- Insertion sort by a boolean `le`, used to model the sortedness of
pandas `MultiIndex.levels`. -/
def insertSorted (le : String → String → Bool) (x : String) : List String → List String
  | [] => [x]
  | y :: ys => if le x y then x :: y :: ys else y :: insertSorted le x ys

/-- Lexicographic comparison of char lists by code point, as Python
compares strings. -/
def charListLe : List Char → List Char → Bool
  | [], _ => true
  | _ :: _, [] => false
  | c :: cs, d :: ds =>
    if c.toNat < d.toNat then true
    else if d.toNat < c.toNat then false
    else charListLe cs ds

/-- Python string ordering (by code point). -/
def pyStrLe (a b : String) : Bool := charListLe a.data b.data

/-- Sort a list of strings lexicographically. -/
def sortStr (l : List String) : List String :=
  l.foldr (insertSorted pyStrLe) []

/-- pandas `summary.columns.levels[0]`: the distinct station labels in
sorted order (`pyfigure.py` lines 333, 360). -/
def levels0 (df : SummaryDF) : List String := sortStr (stationsOf df)

/-- The station sub-frame `summary[station]` as a list of
(metric, values) pairs in stored column order. -/
def subDF (df : SummaryDF) (st : String) : List (String × List Int) :=
  df.cols.filterMap (fun c => if c.1.1 = st then some (c.1.2, c.2) else none)

/-- pandas `series.max()` of an integer column: `none` on an empty column
(pandas yields NaN there). -/
def seriesMax : List Int → Option Int
  | [] => none
  | x :: xs => some (xs.foldl max x)

/-- The derived filler column of one station:
`summary[(station, "days")].max() - summary[(station, "n_rain")] - summary[(station, "n_dry")]`
(`pyfigure.py` lines 361-365). -/
def nLeftCol (df : SummaryDF) (st : String) : List Int :=
  match seriesMax (getColK df (st, "days")) with
  | some m =>
      List.zipWith (fun r d => m - r - d)
        (getColK df (st, "n_rain")) (getColK df (st, "n_dry"))
  | none => []

/-- The mutation loop of `generate_summary_rain_dry`
(`pyfigure.py` lines 360-365): for each station of `levels[0]`, assign the
derived `n_left` column into the summary itself (no copy is taken). -/
def addNLeftAll (df : SummaryDF) : SummaryDF :=
  (levels0 df).foldl (fun acc st => setColK acc (st, "n_left") (nLeftCol acc st)) df

/-! ## Oversized-dataset thresholds (`pyfigure.py` lines 18-21) -/

def THRESHOLD_SUMMARY : Nat := (367 * 8) / 2

def THRESHOLD_XAXES : Nat := 12 * 2 * 5

/-! ## Axis tick planner (`pyfigure.py` lines 253-266 and 415-428) -/

/-- The tick plan of the two summary builders, given the (already
lower-cased) period string: daily `%d %b %Y` labels by default, overridden
for `monthly` / `yearly`; one tick per entry at positions `0..n-1` when
the index length is at most `THRESHOLD_XAXES`, every second entry
otherwise.  Returns `(tickvals, ticktext)`. -/
def planTicks (index : List Date) (periodLower : String) : List Nat × List String :=
  let ticktext :=
    if periodLower = "monthly" then index.map fmtMonthly
    else if periodLower = "yearly" then index.map fmtYearly
    else index.map fmtDaily
  if index.length ≤ THRESHOLD_XAXES then
    (List.range index.length, ticktext)
  else
    (everySecond (List.range index.length), everySecond ticktext)

/-! ## Color assigner (`pyfigure.py` lines 292-302 and 595-605) -/

/-- The base color list: a literal prefix of the theme colorway when the
number of logical groups is strictly below its length, otherwise
`islice(cycle(colorway), n)`. -/
def assignColors (colorway : List String) (n : Nat) : List String :=
  if n < colorway.length then colorway.take n else cycleTake colorway n

/-- Modelled from the spec: the external Theme Provider
(`pytemplate.hktemplate.layout.colorway`, not part of `src/`) supplies an
ordered, non-empty color cycle; a concrete three-color stand-in is used
where the entry points need a value. -/
def hkColorway : List String := ["#19535f", "#d81159", "#ffbc42"]

/-! ## Traces -/

/-- A plotly bar/scatter trace, restricted to the fields the source sets.
`none` in an optional field means the plotly default was left in place. -/
structure Trace where
  x : List Nat
  y : List Int
  name : String
  legendgroup : String
  legendgrouptitle : Option String := none
  showlegend : Option Bool := none
  hoverinfo : Option String := none
  hovertemplate : Option String := none
  legendrank : Option Nat := none
  markerLineWidth : Option Nat := none
  markerOpacity : Option Nat := none
  markerColor : Option String := none
  custom : Option (List Date) := none
deriving DecidableEq, Repr

/-- Plotly legend ordering semantics (external library, documented): every
trace carries a legend rank defaulting to 1000, and items with smaller
ranks are presented before items with larger ranks. -/
def effRank (t : Trace) : Nat := t.legendrank.getD 1000

/-- The bar trace of the grouped maximum/sum builder
(`pyfigure.py` lines 229-235). -/
def barTraceMaxSum (st ufcol : String) (n : Nat) (ys : List Int) : Trace :=
  { x := List.range n, y := ys,
    name := st ++ " (" ++ ufcol ++ ")",
    legendgroup := st, legendgrouptitle := some st }

/-- The real-metric bar trace of the stacked rain/dry builder
(`pyfigure.py` lines 375-384). -/
def realTraceRD (st ufcol : String) (n : Nat) (dates : List Date) (ys : List Int) : Trace :=
  { x := List.range n, y := ys,
    name := st ++ " (" ++ ufcol ++ ")",
    legendgroup := st, legendgrouptitle := some st,
    markerLineWidth := some 0,
    custom := some dates,
    hovertemplate := some (st ++ "<br>" ++ ufcol ++ ": %{y}<extra></extra>") }

/-- The derived filler ("border") bar trace of the stacked rain/dry
builder (`pyfigure.py` lines 387-398). -/
def fillerTrace (st : String) (n : Nat) (ys : List Int) : Trace :=
  { x := List.range n, y := ys,
    name := "<i>" ++ st ++ " (border)</i>",
    legendgroup := st, legendgrouptitle := some st,
    showlegend := some true,
    hoverinfo := some ("skip"),
    markerLineWidth := some 0,
    markerOpacity := some 1,
    legendrank := some 500 }

/-- One station's trace list in the stacked rain/dry builder
(`pyfigure.py` lines 371-399): for each column of the station sub-frame in
stored order, a real bar when the metric is one of the requested
`ufunc_cols`, and the filler bar when it is the derived `n_left`. -/
def tracesForStation (df : SummaryDF) (ufuncCols : List String) (st : String) : List Trace :=
  (subDF df st).flatMap (fun c =>
    if (ufuncCols ++ ["n_left"]).contains c.1 then
      (if ufuncCols.contains c.1 then [realTraceRD st c.1 df.index.length df.index c.2] else [])
        ++ (if c.1 = "n_left" then [fillerTrace st df.index.length c.2] else [])
    else [])

/-- The flattened `fig.data` of the stacked rain/dry builder: stations in
first-seen order, one subplot row per station. -/
def rainDryFigData (df : SummaryDF) (ufuncCols : List String) : List Trace :=
  (stationsOf df).flatMap (tracesForStation df ufuncCols)

/-- The flattened `fig.data` of the grouped maximum/sum builder
(`pyfigure.py` lines 222-240): traces are collected per station per
requested metric, grouped into a `defaultdict` keyed by metric in
first-encountered order, then concatenated row by row. -/
def maxSumFigData (df : SummaryDF) (ufuncCols : List String) : List Trace :=
  let pairs := (stationsOf df).flatMap (fun st =>
    (subDF df st).filterMap (fun c =>
      if ufuncCols.contains c.1
      then some (c.1, barTraceMaxSum st c.1 df.index.length c.2) else none))
  let keys := dedupFirstSeen (pairs.map (fun p => p.1))
  keys.flatMap (fun k => (pairs.filter (fun p => p.1 = k)).map (fun p => p.2))

/-- Python loop `for data, color in zip(fig.data, colors): data.marker.color = color`
(`pyfigure.py` lines 301-302, 459-460, 604-605): traces beyond the color
list keep their previous marker color. -/
def applyColors (ts : List Trace) (cs : List String) : List Trace :=
  (List.zipWith (fun t c => { t with markerColor := some c }) ts cs) ++ ts.drop cs.length

/-! ## Figures and the dcc.Graph wrapper -/

/-- The figure payloads the entry points can produce. -/
inductive Fig where
  /-- Output of `generate_empty_figure`: the single annotation text. -/
  | emptyFig (text : String)
  /-- A subplot figure: the x-axis tick plan plus the flattened traces. -/
  | subplots (ticktext : List String) (tickvals : List Nat) (traces : List Trace)
  /-- Payload of `generate_cumulative_sum`: x (sequential numbers) and y values. -/
  | cumsum (xs : List Int) (ys : List Int)
  /-- Payload of `generate_scatter_with_trendline`: x values and row-mean y values. -/
  | scatterTrend (xs : List Int) (ys : List Rat)
deriving DecidableEq, Repr

/-- The `dcc.Graph` wrapper: the figure plus whether `config={"staticPlot": True}` was
passed (the non-interactive flag; absent means interactive). -/
structure Graph where
  figure : Fig
  staticPlot : Bool
deriving DecidableEq, Repr

/-- Embedding of `generate_empty_figure` (`pyfigure.py` lines 126-169), reduced to
the annotation it carries: the text wrapped in italics. -/
def generate_empty_figure (text : String) : Fig :=
  Fig.emptyFig ("<i>" ++ text ++ "</i>")

/-- The static placeholder graph both summary entry points return for
oversized datasets (`pyfigure.py` lines 207-210, 343-346). -/
def placeholderGraph : Graph :=
  { figure := generate_empty_figure ("dataset above threshold"), staticPlot := true }

/-! ## Entry point: grouped maximum/sum summary (`pyfigure.py` lines 172-304) -/

/-- The full-rendering tail of `generate_summary_maximum_sum`
(`pyfigure.py` lines 212-304): when the summary has no columns at all, the
inner loop never assigns `last_series` and line 253 raises on `None`;
otherwise the tick plan is derived from the shared time index (every
column of a pandas frame shares the frame index), the traces are grouped
by metric, and colors are the cycled half-split repeated twice. -/
def buildMaxSumChart (df : SummaryDF) (period : Option String) : Except String Graph :=
  if df.cols.isEmpty then
    Except.error ("AttributeError: NoneType has no attribute index")
  else
    match pyLower period with
    | Except.error e => Except.error e
    | Except.ok p =>
      let traces := maxSumFigData df ["max", "sum"]
      let plan := planTicks df.index p
      let colors := assignColors hkColorway (traces.length / 2)
      Except.ok
        { figure := Fig.subplots plan.2 plan.1 (applyColors traces (pyMul colors 2)),
          staticPlot := false }

/-- Embedding of `generate_summary_maximum_sum` with its default
`ufunc_cols` (`pyfigure.py` lines 172-304): the oversized-dataset guard at
lines 204-210, then the full chart.  Python short-circuits: when neither
threshold is exceeded, `period.lower()` is not evaluated inside the guard,
but line 255 evaluates it unconditionally on the render path. -/
def generate_summary_maximum_sum (df : SummaryDF) (period : Option String) :
    Except String Graph :=
  if df.size > THRESHOLD_SUMMARY ∨ df.index.length > THRESHOLD_XAXES then
    match pyLower period with
    | Except.error e => Except.error e
    | Except.ok p =>
      if p ≠ "yearly" then Except.ok placeholderGraph
      else buildMaxSumChart df period
  else buildMaxSumChart df period

/-! ## Entry point: stacked rain/dry summary (`pyfigure.py` lines 307-462) -/

/-- The full-rendering tail of `generate_summary_rain_dry`
(`pyfigure.py` lines 348-462): the `n_left` columns are assigned into the
caller's summary itself (the write at reference `r` — there is no copy),
then traces, tick plan and the fixed three-color palette are assembled. -/
def buildRainDryChart (h : List SummaryDF) (r : Nat) (df : SummaryDF)
    (period : Option String) : List SummaryDF × Except String Graph :=
  let df2 := addNLeftAll df
  let h2 := writeH h r df2
  if df2.cols.isEmpty then
    (h2, Except.error ("AttributeError: NoneType has no attribute index"))
  else
    match pyLower period with
    | Except.error e => (h2, Except.error e)
    | Except.ok p =>
      let traces := rainDryFigData df2 ["n_rain", "n_dry"]
      let plan := planTicks df2.index p
      let colorList := hkColorway.take 2 ++ ["DarkGray"]
      (h2,
        Except.ok
          { figure :=
              Fig.subplots plan.2 plan.1
                (applyColors traces (pyMul colorList (levels0 df).length)),
            staticPlot := false })

/-- Embedding of `generate_summary_rain_dry` with its default
`ufunc_cols` (`pyfigure.py` lines 307-462), in heap style: `r` is the
caller's reference to the summary frame; the returned heap is the state
the caller sees after the call. -/
def generate_summary_rain_dry (h : List SummaryDF) (r : Nat) (period : Option String) :
    List SummaryDF × Except String Graph :=
  match readH h r with
  | none => (h, Except.error ("KeyError"))
  | some df =>
    if df.size > THRESHOLD_SUMMARY ∨ df.index.length > THRESHOLD_XAXES then
      match pyLower period with
      | Except.error e => (h, Except.error e)
      | Except.ok p =>
        if p ≠ "yearly" then (h, Except.ok placeholderGraph)
        else buildRainDryChart h r df period
    else buildRainDryChart h r df period

/-! ## Trendline annotator (`pyfigure.py` lines 653-670 and 727-744) -/

/-- One regression trace as the annotator sees it: the library-supplied
hover template, legend visibility, and display name. -/
structure TrendTrace where
  hovertemplate : String
  showlegend : Bool
  name : String
deriving DecidableEq, Repr

/-- Match a literal character sequence at the head of the input, returning
the remainder on success. -/
def stripLit : List Char → List Char → Option (List Char)
  | [], s => some s
  | _ :: _, [] => none
  | l :: ls, c :: cs => if c = l then stripLit ls cs else none

/-- Backtracking helper: try candidate lengths from `n` down to `1`
(greedy order of a regex `+`). -/
def tryLensDesc {α : Type} (f : Nat → Option α) : Nat → Option α
  | 0 => none
  | n + 1 => (f (n + 1)).orElse (fun _ => tryLensDesc f n)

/-- Greedy match of the fixed pattern `<br>(.+)<br>R.+=([0-9.]+)<br>`
(`pyfigure.py` lines 657, 731) anchored at the start of the input,
returning the two captured groups.  The dot class stops at a newline, as
in Python `re`. -/
def matchTrendPattern (s : List Char) : Option (String × String) :=
  match stripLit ("<br>".data) s with
  | none => none
  | some s1 =>
    tryLensDesc (fun k =>
      match stripLit ("<br>R".data) (s1.drop k) with
      | none => none
      | some s2 =>
        tryLensDesc (fun j =>
          match stripLit ("=".data) (s2.drop j) with
          | none => none
          | some s3 =>
            tryLensDesc (fun i =>
              match stripLit ("<br>".data) (s3.drop i) with
              | none => none
              | some _ => some (String.mk (s1.take k), String.mk (s3.take i)))
              ((s3.takeWhile (fun c => c.isDigit || c == '.')).length))
          ((s2.takeWhile (fun c => c != '\n')).length))
      ((s1.takeWhile (fun c => c != '\n')).length)

/-- Leftmost match: scan start positions left to right, as
`re.findall(...)[0]` selects the first match of the pattern. -/
def scanTrendPattern : List Char → Option (String × String)
  | [] => none
  | c :: t =>
    match matchTrendPattern (c :: t) with
    | some r => some r
    | none => scanTrendPattern t

/-- The rewritten hover template of `generate_cumulative_sum`
(`pyfigure.py` lines 659-666). -/
def cumTemplate (eqn r2 : String) : String :=
  "<b>OLS trendline</b><br>" ++ "<i>" ++ eqn ++ "</i><br>"
    ++ "<i>R<sup>2</sup>: " ++ r2 ++ "</i><br>"
    ++ "<b>%{y} mm</b> (trend)<br>" ++ "<i>%{x}</i>" ++ "<extra></extra>"

/-- The rewritten hover template of `generate_scatter_with_trendline`
(`pyfigure.py` lines 733-740). -/
def scatterTemplate (eqn r2 : String) : String :=
  "<b>OLS trendline</b><br>" ++ "<i>" ++ eqn ++ "</i><br>"
    ++ "<i>R<sup>2</sup>: " ++ r2 ++ "</i><br>"
    ++ "<b>%{y} mm</b> (trend)<br>" ++ "<i>%{x} mm</i>" ++ "<extra></extra>"

/-- The trendline post-processing shared by both cumulative entry points
(`pyfigure.py` lines 653-670, 727-744): when the hover template is not the
exact sentinel, the equation and R2 are extracted by the fixed pattern and
the template is rewritten (an extraction failure is Python
`findall(...)[0]` raising `IndexError`); in every non-raising case the
trace is then made legend-visible and renamed. -/
def annotateCore (stylized : String → String → String) (t : TrendTrace) :
    Except String TrendTrace :=
  let step :=
    if t.hovertemplate ≠ "<extra></extra>" then
      match scanTrendPattern t.hovertemplate.data with
      | some g => Except.ok { t with hovertemplate := stylized g.1 g.2 }
      | none => Except.error ("IndexError: list index out of range")
    else Except.ok t
  step.map (fun u => { u with showlegend := true, name := "trendline" })

/-- The trendline annotator of `generate_cumulative_sum`. -/
def annotateCumTrendline : TrendTrace → Except String TrendTrace :=
  annotateCore cumTemplate

/-- The trendline annotator of `generate_scatter_with_trendline`. -/
def annotateScatterTrendline : TrendTrace → Except String TrendTrace :=
  annotateCore scatterTemplate

/-! ## Entry points: cumulative sums (`pyfigure.py` lines 610-754) -/

/-- Embedding of `generate_cumulative_sum` (`pyfigure.py` lines 610-681)
in heap style, restricted to its frame behaviour and plotted series: the
default data column is the first column (an empty frame raises), the input
frame is copied (`allocH`), and the sequential `number` column is assigned
into the copy only. -/
def generate_cumulative_sum (h : List CumDF) (r : Nat) (dataColumn : Option String) :
    List CumDF × Except String Fig :=
  match readH h r with
  | none => (h, Except.error ("KeyError"))
  | some df =>
    let dcolE : Except String String :=
      match dataColumn with
      | some c => Except.ok c
      | none =>
        match df.cols.head? with
        | some c => Except.ok c.1
        | none => Except.error ("IndexError: index 0 is out of bounds")
    match dcolE with
    | Except.error e => (h, Except.error e)
    | Except.ok dcol =>
      let alloc1 := allocH h df
      let numbered :=
        setColK df ("number") ((List.range df.index.length).map (fun i => (i : Int) + 1))
      let h2 := writeH alloc1.1 alloc1.2 numbered
      (h2, Except.ok (Fig.cumsum (getColK numbered ("number")) (getColK numbered dcol)))

/-- Row-wise mean over a list of columns, exact over `Rat`
(`pyfigure.py` line 703: `cumulative_sum_df[other_stations].mean(axis=1)`). -/
def rowMeans (colsVals : List (List Int)) (n : Nat) : List Rat :=
  (List.range n).map (fun i =>
    ((colsVals.map (fun c => ((c.getD i 0 : Int) : Rat))).sum) / (colsVals.length : Rat))

/-- Embedding of `generate_scatter_with_trendline`
(`pyfigure.py` lines 684-754) in heap style, restricted to its frame
behaviour and plotted series: the input frame is copied (`allocH`) and only
read afterwards — x is the chosen column, y the row mean of the others. -/
def generate_scatter_with_trendline (h : List CumDF) (r : Nat) (dataColumn : String) :
    List CumDF × Except String Fig :=
  match readH h r with
  | none => (h, Except.error ("KeyError"))
  | some df =>
    let alloc1 := allocH h df
    let xs := getColK df dataColumn
    let others := df.cols.filter (fun c => c.1 != dataColumn)
    let ys := rowMeans (others.map (fun c => c.2)) df.index.length
    (alloc1.1, Except.ok (Fig.scatterTrend xs ys))

/-! ## Concrete fixtures used by witnesses and counterexamples -/

/-- The two-station stacked rain/dry fixture of the specification: station
A with `n_rain=5, n_dry=3, days=10` and station B with `n_rain=10,
n_dry=0, days=10`, over a single monthly bucket. -/
def exRainDry : SummaryDF :=
  { index := [⟨2000, 1, 1⟩],
    cols :=
      [ (("A", "n_rain"), [5]), (("A", "n_dry"), [3]), (("A", "days"), [10]),
        (("B", "n_rain"), [10]), (("B", "n_dry"), [0]), (("B", "days"), [10]) ] }

/-- A small in-threshold (station, metric) summary: one station, two rows. -/
def exSmallSummary : SummaryDF :=
  { index := [⟨2000, 1, 1⟩, ⟨2000, 2, 1⟩],
    cols := [ (("A", "max"), [12, 7]), (("A", "sum"), [40, 23]) ] }

/-- An oversized summary: 121 daily rows, exceeding `THRESHOLD_XAXES`. -/
def exBigSummary : SummaryDF :=
  { index := (List.range 121).map (fun i => ⟨2000, 1, i⟩),
    cols := [ (("A", "max"), List.replicate 121 0) ] }

/-- A two-column cumulative-sum frame. -/
def exCumDf : CumDF :=
  { index := [⟨2000, 1, 1⟩, ⟨2001, 1, 1⟩],
    cols := [("S1", [3, 7]), ("S2", [1, 5])] }

/-! ## Helper lemmas -/

theorem everySecond_length {α : Type} :
    (l : List α) → (everySecond l).length = (l.length + 1) / 2
  | [] => by simp [everySecond]
  | [_] => by simp [everySecond]
  | _ :: _ :: xs => by
    simp only [everySecond, List.length_cons, everySecond_length xs]
    omega

theorem everySecond_sublist {α : Type} : (l : List α) → (everySecond l).Sublist l
  | [] => List.Sublist.refl _
  | [_] => List.Sublist.refl _
  | x :: y :: xs =>
    List.Sublist.cons₂ x ((everySecond_sublist xs).trans (List.sublist_cons_self y xs))

theorem zipWith_getElem?_some {α β γ : Type} (f : α → β → γ) :
    ∀ (l₁ : List α) (l₂ : List β) (i : Nat) (a : α) (b : β),
      l₁[i]? = some a → l₂[i]? = some b → (List.zipWith f l₁ l₂)[i]? = some (f a b)
  | [], _, _, _, _, h₁, _ => by simp at h₁
  | _ :: _, [], _, _, _, _, h₂ => by simp at h₂
  | x :: xs, y :: ys, 0, a, b, h₁, h₂ => by
    simp at h₁ h₂
    simp [List.zipWith, h₁, h₂]
  | x :: xs, y :: ys, i + 1, a, b, h₁, h₂ => by
    simp at h₁ h₂
    simpa [List.zipWith] using zipWith_getElem?_some f xs ys i a b h₁ h₂

theorem cycleTake_length (l : List String) (n : Nat) (hl : l ≠ []) :
    (cycleTake l n).length = n := by
  simp [cycleTake, hl]

theorem cycleTake_getElem? (l : List String) (n i : Nat) (hl : l ≠ []) (hi : i < n) :
    (cycleTake l n)[i]? = l[i % l.length]? := by
  have hlen : 0 < l.length := List.length_pos.mpr hl
  have hmod : i % l.length < l.length := Nat.mod_lt _ hlen
  simp only [cycleTake, List.isEmpty_iff, hl, if_false]
  rw [List.getElem?_map, List.getElem?_range hi]
  simp [List.getD, List.getElem?_eq_getElem hmod]

theorem pyMul_length {α : Type} (l : List α) : (m : Nat) → (pyMul l m).length = m * l.length
  | 0 => by simp [pyMul]
  | m + 1 => by
    simp [pyMul, pyMul_length l m]
    ring

theorem cycleTake_self (l : List String) (hl : l ≠ []) : cycleTake l l.length = l := by
  apply List.ext_getElem?
  intro i
  by_cases hi : i < l.length
  · rw [cycleTake_getElem? l l.length i hl hi, Nat.mod_eq_of_lt hi]
  · have h1 : (cycleTake l l.length)[i]? = none :=
      List.getElem?_eq_none (by rw [cycleTake_length l l.length hl]; omega)
    have h2 : l[i]? = none := List.getElem?_eq_none (by omega)
    rw [h1, h2]

theorem assignColors_length (cw : List String) (n : Nat) (hcw : cw ≠ []) :
    (assignColors cw n).length = n := by
  by_cases h : n < cw.length
  · simp [assignColors, h]
    omega
  · simp [assignColors, h, cycleTake_length cw n hcw]

/-- The `n_left` mutation loop can only grow the column list, so a summary
with columns still has columns afterwards. -/
theorem setColK_cols_ne_nil {κ : Type} [DecidableEq κ] (df : DFr κ) (key : κ)
    (vals : List Int) (h : df.cols ≠ []) : (setColK df key vals).cols ≠ [] := by
  unfold setColK
  by_cases hc : df.cols.any (fun c => decide (c.1 = key))
  · simpa [hc] using h
  · simp [hc]

theorem addNLeftAll_cols_ne_nil (df : SummaryDF) (h : df.cols ≠ []) :
    (addNLeftAll df).cols ≠ [] := by
  unfold addNLeftAll
  generalize levels0 df = sts
  induction sts generalizing df with
  | nil => simpa using h
  | cons st sts ih =>
    simp only [List.foldl_cons]
    exact ih _ (setColK_cols_ne_nil df (st, "n_left") (nLeftCol df st) h)

deriving instance DecidableEq for Except

set_option maxRecDepth 8000

/-! ## Claim theorems -/

/-- C2: in the stacked rain/dry builder, for every station and every row
of the summary, the derived filler value satisfies
`n_rain + n_dry + n_left = max(days)` exactly, where `max(days)` is the
maximum of that station's `days` column and `n_left` is the value computed
by the builder at `pyfigure.py` lines 361-365. -/
theorem rain_dry_stack_invariant (df : SummaryDF) (st : String) (m rain dry nl : Int)
    (i : Nat)
    (hm : seriesMax (getColK df (st, "days")) = some m)
    (hr : (getColK df (st, "n_rain"))[i]? = some rain)
    (hd : (getColK df (st, "n_dry"))[i]? = some dry)
    (hl : (nLeftCol df st)[i]? = some nl) :
    rain + dry + nl = m := by
  unfold nLeftCol at hl
  rw [hm] at hl
  rw [zipWith_getElem?_some _ _ _ _ _ _ hr hd] at hl
  have : m - rain - dry = nl := by injection hl
  omega

/-- C2 witness: the invariant instantiated at the two-station fixture, row
0 of station A: `5 + 3 + 2 = 10`. -/
theorem rain_dry_stack_invariant_witness : (5 : Int) + 3 + 2 = 10 :=
  rain_dry_stack_invariant exRainDry "A" 10 5 3 2 0 (by decide) (by decide) (by decide)
    (by decide)

/-- C3: for every time index, the axis tick plan has as many tick values
as tick labels; for an index of length at most 120 the tick values are
exactly the positions `0..len-1`; for a longer index the plan keeps every
second entry, so it has `ceil(len/2)` entries and the tick values are
strictly increasing. -/
theorem tick_plan_spec (index : List Date) (p : String) :
    (planTicks index p).1.length = (planTicks index p).2.length
    ∧ (index.length ≤ THRESHOLD_XAXES → (planTicks index p).1 = List.range index.length)
    ∧ (THRESHOLD_XAXES < index.length →
        (planTicks index p).1.length = (index.length + 1) / 2
        ∧ List.Pairwise (fun a b => a < b) (planTicks index p).1) := by
  have hlab :
      (if p = "monthly" then index.map fmtMonthly
       else if p = "yearly" then index.map fmtYearly
       else index.map fmtDaily).length = index.length := by
    split_ifs <;> simp
  by_cases hle : index.length ≤ THRESHOLD_XAXES
  · refine ⟨?_, fun _ => ?_, fun hgt => absurd hgt (not_lt.mpr hle)⟩
    · simp only [planTicks, hle, if_true]
      simp [hlab]
    · simp [planTicks, hle]
  · refine ⟨?_, fun hc => absurd hc hle, fun _ => ⟨?_, ?_⟩⟩
    · simp only [planTicks, hle, if_false]
      rw [everySecond_length, everySecond_length, List.length_range, hlab]
    · simp only [planTicks, hle, if_false]
      rw [everySecond_length, List.length_range]
    · simp only [planTicks, hle, if_false]
      exact (List.pairwise_lt_range _).sublist (everySecond_sublist _)

/-- C3 witness: the tick plan evaluated on a 3-entry index (one tick per
entry) and on the 121-entry index (61 strictly increasing ticks). -/
theorem tick_plan_witness :
    (planTicks exSmallSummary.index "monthly").1 = List.range exSmallSummary.index.length
    ∧ (planTicks exBigSummary.index "monthly").1.length
        = (exBigSummary.index.length + 1) / 2
    ∧ List.Pairwise (fun a b => a < b) (planTicks exBigSummary.index "monthly").1 :=
  ⟨(tick_plan_spec exSmallSummary.index "monthly").2.1 (by decide),
   ((tick_plan_spec exBigSummary.index "monthly").2.2 (by decide)).1,
   ((tick_plan_spec exBigSummary.index "monthly").2.2 (by decide)).2⟩

/-- C5 counterexample: at the exact sentinel, the trace is NOT returned
unchanged: the annotator still sets legend visibility and the name, so the
original trace (hidden, unnamed) differs from what is returned. -/
theorem sentinel_counterexample :
    annotateCumTrendline ⟨"<extra></extra>", false, ""⟩
      ≠ Except.ok ⟨"<extra></extra>", false, ""⟩ := by decide

/-- C5 amended: when the regression trace's hover text equals the exact
sentinel, no hover-template rewrite occurs — the hover template is
returned unchanged — but the trace is still made legend-visible and
renamed to "trendline" (both annotators). -/
theorem sentinel_skips_rewrite (t : TrendTrace)
    (h : t.hovertemplate = "<extra></extra>") :
    annotateCumTrendline t = Except.ok ⟨t.hovertemplate, true, "trendline"⟩
    ∧ annotateScatterTrendline t = Except.ok ⟨t.hovertemplate, true, "trendline"⟩ := by
  unfold annotateCumTrendline annotateScatterTrendline annotateCore
  simp [h, Except.map]

/-- C5 witness: the amended behaviour at the concrete sentinel trace. -/
theorem sentinel_skips_rewrite_witness :
    annotateCumTrendline ⟨"<extra></extra>", false, ""⟩
      = Except.ok ⟨"<extra></extra>", true, "trendline"⟩ :=
  (sentinel_skips_rewrite ⟨"<extra></extra>", false, ""⟩ rfl).1

/-- C7: for every non-empty theme colorway, the assigned color list
repeated by the cycle multiplier has length `n * m`; when `n` is at most
the colorway length the base list is a literal prefix of the theme colors
(so the final list is that prefix repeated `m` times positionally); and in
general the base list is the colorway repeated round-robin in original
order, i.e. entry `i` is theme color `i mod len`. -/
theorem color_assigner_spec (cw : List String) (n m : Nat) (hcw : cw ≠ []) :
    (pyMul (assignColors cw n) m).length = n * m
    ∧ (n ≤ cw.length → assignColors cw n = cw.take n)
    ∧ (∀ i, i < n → (assignColors cw n)[i]? = cw[i % cw.length]?) := by
  refine ⟨?_, ?_, ?_⟩
  · rw [pyMul_length, assignColors_length cw n hcw, Nat.mul_comm]
  · intro hle
    by_cases h : n < cw.length
    · simp [assignColors, h]
    · have heq : n = cw.length := le_antisymm hle (not_lt.mp h)
      subst heq
      simp only [assignColors, lt_irrefl, if_false]
      rw [cycleTake_self cw hcw, List.take_length]
  · intro i hi
    by_cases h : n < cw.length
    · have hi' : i < cw.length := lt_trans hi h
      simp only [assignColors, h, if_true]
      rw [Nat.mod_eq_of_lt hi']
      simp [List.getElem?_take, hi]
    · simp only [assignColors, h, if_false]
      exact cycleTake_getElem? cw n i hcw hi

/-- C7 witness: both branches at concrete inputs — three groups on a
two-color theme cycle (round-robin) and two groups on a three-color theme
(literal prefix). -/
theorem color_assigner_witness :
    (pyMul (assignColors (["a", "b"]) 3) 2).length = 3 * 2
    ∧ assignColors (["a", "b", "c"]) 2 = ["a", "b"]
    ∧ (assignColors (["a", "b"]) 3)[2]? = (["a", "b"] : List String)[2 % 2]? :=
  ⟨(color_assigner_spec (["a", "b"]) 3 2 (by decide)).1,
   (color_assigner_spec (["a", "b", "c"]) 2 1 (by decide)).2.1 (by decide),
   (color_assigner_spec (["a", "b"]) 3 2 (by decide)).2.2 2 (by decide)⟩

/-- C8: for every regression trace whose hover text is not the sentinel
and on which the fixed pattern finds its first match, the annotator
rewrites the hover template to the stylized annotation and the trace is
made legend-visible and renamed to "trendline"; and the fixed pattern on
the hover text `<br>y=2x+1<br>R^2=0.95<br>` extracts equation `y=2x+1` and
R2 `0.95`. -/
theorem trendline_rewrite_spec :
    (∀ (t : TrendTrace) (eqn r2 : String),
        t.hovertemplate ≠ "<extra></extra>" →
        scanTrendPattern t.hovertemplate.data = some (eqn, r2) →
        annotateCumTrendline t = Except.ok ⟨cumTemplate eqn r2, true, "trendline"⟩)
    ∧ scanTrendPattern ("<br>y=2x+1<br>R^2=0.95<br>".data)
        = some ("y=2x+1", "0.95") := by
  constructor
  · intro t eqn r2 hne hscan
    unfold annotateCumTrendline annotateCore
    simp [hne, hscan, Except.map]
  · decide

/-- C8 witness: the annotator applied to the fixture trace produces the
stylized template and forces legend visibility and the name. -/
theorem trendline_rewrite_witness :
    annotateCumTrendline ⟨"<br>y=2x+1<br>R^2=0.95<br>", false, ""⟩
      = Except.ok ⟨cumTemplate ("y=2x+1") ("0.95"), true, "trendline"⟩ :=
  trendline_rewrite_spec.1 ⟨"<br>y=2x+1<br>R^2=0.95<br>", false, ""⟩ ("y=2x+1") ("0.95")
    (by decide) (by decide)

/-- C6 counterexample: at the concrete two-station fixture, both the
filler trace and a real metric trace of station A are in the station's
trace list, and the filler's effective legend rank (500) is NOT greater
than the real trace's (the plotly default 1000) — so the filler does not
sort after the real metric traces, it sorts before them. -/
theorem filler_rank_counterexample :
    tracesForStation (addNLeftAll exRainDry) ["n_rain", "n_dry"] ("A")
      = [realTraceRD ("A") ("n_rain") 1 exRainDry.index [5],
         realTraceRD ("A") ("n_dry") 1 exRainDry.index [3],
         fillerTrace ("A") 1 [2]]
    ∧ ¬ effRank (fillerTrace ("A") 1 [2])
        > effRank (realTraceRD ("A") ("n_rain") 1 exRainDry.index [5]) := by decide

/-- C6 amended: in the stacked rain/dry builder, for every station whose
sub-frame carries the derived `n_left` column, the filler trace is in the
station's trace list with hover suppressed (`hoverinfo="skip"`), shown in
the legend under the station's legend group with the italicized
"(border)" label, and carries legend rank 500 — which is strictly BELOW
the default rank of the two real metric traces, so it sorts before them
within the group, not after. -/
theorem filler_trace_spec (df : SummaryDF) (st : String) (ys : List Int)
    (h : ("n_left", ys) ∈ subDF df st) :
    fillerTrace st df.index.length ys ∈ tracesForStation df ["n_rain", "n_dry"] st
    ∧ (fillerTrace st df.index.length ys).hoverinfo = some ("skip")
    ∧ (fillerTrace st df.index.length ys).showlegend = some true
    ∧ (fillerTrace st df.index.length ys).legendgroup = st
    ∧ (fillerTrace st df.index.length ys).name = "<i>" ++ st ++ " (border)</i>"
    ∧ (fillerTrace st df.index.length ys).legendrank = some 500
    ∧ ∀ (ufcol : String) (n : Nat) (ds : List Date) (zs : List Int),
        effRank (fillerTrace st df.index.length ys)
          < effRank (realTraceRD st ufcol n ds zs) := by
  refine ⟨?_, rfl, rfl, rfl, rfl, rfl, ?_⟩
  · unfold tracesForStation
    rw [List.mem_flatMap]
    exact ⟨("n_left", ys), h, by simp⟩
  · intro ufcol n ds zs
    simp [effRank, fillerTrace, realTraceRD]

/-- C6 witness: the amended statement at station A of the mutated
two-station fixture. -/
theorem filler_trace_spec_witness :
    fillerTrace ("A") (addNLeftAll exRainDry).index.length [2]
      ∈ tracesForStation (addNLeftAll exRainDry) ["n_rain", "n_dry"] ("A") :=
  (filler_trace_spec (addNLeftAll exRainDry) ("A") [2] (by
    have hsub : subDF (addNLeftAll exRainDry) ("A")
        = [("n_rain", [5]), ("n_dry", [3]), ("days", [10]), ("n_left", [2])] := by decide
    rw [hsub]
    simp)).1

/-- C1: for every summary and period string handed to the grouped
maximum/sum or stacked rain/dry entry points, when the summary's cell
count exceeds `THRESHOLD_SUMMARY` or its index length exceeds
`THRESHOLD_XAXES` and the lower-cased period is not "yearly", the entry
point returns the static placeholder built from the empty-figure
generator; otherwise it proceeds to build a full subplot chart. -/
theorem oversized_guard_policy (df : SummaryDF) (p : String) (h : List SummaryDF)
    (r : Nat) (hcols : df.cols ≠ []) (hread : readH h r = some df) :
    (((df.size > THRESHOLD_SUMMARY ∨ df.index.length > THRESHOLD_XAXES)
          ∧ pyLowerStr p ≠ "yearly") →
        generate_summary_maximum_sum df (some p) = Except.ok placeholderGraph
        ∧ (generate_summary_rain_dry h r (some p)).2 = Except.ok placeholderGraph
        ∧ placeholderGraph.figure = generate_empty_figure ("dataset above threshold")
        ∧ placeholderGraph.staticPlot = true)
    ∧ (¬ ((df.size > THRESHOLD_SUMMARY ∨ df.index.length > THRESHOLD_XAXES)
          ∧ pyLowerStr p ≠ "yearly") →
        (∃ tt tv tr, generate_summary_maximum_sum df (some p)
            = Except.ok { figure := Fig.subplots tt tv tr, staticPlot := false })
        ∧ (∃ tt tv tr, (generate_summary_rain_dry h r (some p)).2
            = Except.ok { figure := Fig.subplots tt tv tr, staticPlot := false })) := by
  have hempty : df.cols.isEmpty = false := by
    simpa [List.isEmpty_iff] using hcols
  have hempty2 : (addNLeftAll df).cols.isEmpty = false := by
    simpa [List.isEmpty_iff] using addNLeftAll_cols_ne_nil df hcols
  constructor
  · rintro ⟨hsize, hy⟩
    refine ⟨?_, ?_, rfl, rfl⟩
    · simp [generate_summary_maximum_sum, hsize, pyLower, hy]
    · simp [generate_summary_rain_dry, readH] at hread ⊢
      simp [hread, hsize, pyLower, hy]
  · intro hnc
    by_cases hsize : df.size > THRESHOLD_SUMMARY ∨ df.index.length > THRESHOLD_XAXES
    · have hy : pyLowerStr p = "yearly" := by
        by_contra hy
        exact hnc ⟨hsize, hy⟩
      constructor
      · simp only [generate_summary_maximum_sum, hsize, or_true, true_or, if_true,
          pyLower, hy, ne_eq, not_true_eq_false, if_false, buildMaxSumChart, hempty,
          Bool.false_eq_true]
        exact ⟨_, _, _, rfl⟩
      · simp only [generate_summary_rain_dry, readH] at hread ⊢
        rw [hread]
        simp only [hsize, or_true, true_or, if_true, pyLower, hy, ne_eq,
          not_true_eq_false, if_false, buildRainDryChart, hempty2, Bool.false_eq_true]
        exact ⟨_, _, _, rfl⟩
    · constructor
      · simp only [generate_summary_maximum_sum, hsize, if_false, buildMaxSumChart,
          hempty, Bool.false_eq_true, pyLower]
        exact ⟨_, _, _, rfl⟩
      · simp only [generate_summary_rain_dry, readH] at hread ⊢
        rw [hread]
        simp only [hsize, if_false, buildRainDryChart, hempty2, Bool.false_eq_true,
          pyLower]
        exact ⟨_, _, _, rfl⟩

/-- C1 witness: the guard at the oversized 121-row summary yields the
static placeholder, and at the small in-threshold summary a full subplot
chart. -/
theorem oversized_guard_witness :
    generate_summary_maximum_sum exBigSummary (some "Monthly")
      = Except.ok placeholderGraph
    ∧ (∃ tt tv tr, generate_summary_maximum_sum exSmallSummary (some "Monthly")
        = Except.ok { figure := Fig.subplots tt tv tr, staticPlot := false }) :=
  ⟨((oversized_guard_policy exBigSummary "Monthly" [exBigSummary] 0 (by decide)
      rfl).1 (by decide)).1,
   ((oversized_guard_policy exSmallSummary "Monthly" [exSmallSummary] 0 (by decide)
      rfl).2 (by decide)).1⟩

/-- C4: calling the grouped maximum/sum entry point with the documented
default `period=None` always raises — the guard path hits
`period.lower()` at line 206 and the render path at line 255 — although
the claim (and the function's own docstring, which lists `None` as a
valid value) requires the call not to raise. -/
theorem period_none_always_raises (df : SummaryDF) :
    ∃ e, generate_summary_maximum_sum df none = Except.error e := by
  by_cases hsize : df.size > THRESHOLD_SUMMARY ∨ df.index.length > THRESHOLD_XAXES
  · exact ⟨"AttributeError: NoneType has no attribute lower",
      by simp [generate_summary_maximum_sum, hsize, pyLower]⟩
  · by_cases hc : df.cols.isEmpty
    · exact ⟨"AttributeError: NoneType has no attribute index",
        by simp [generate_summary_maximum_sum, hsize, buildMaxSumChart, hc]⟩
    · exact ⟨"AttributeError: NoneType has no attribute lower", by
        simp [generate_summary_maximum_sum, hsize, buildMaxSumChart, hc, pyLower]⟩

/-- C9 counterexample: the stacked rain/dry entry point does NOT leave the
caller-supplied summary unchanged — after the call on the two-station
fixture, the caller's frame differs from the input. -/
theorem rain_dry_mutation_counterexample :
    readH (generate_summary_rain_dry [exRainDry] 0 (some "Monthly")).1 0
      ≠ some exRainDry := by decide

/-- C9 amended: the stacked rain/dry entry point mutates the
caller-supplied summary in place on the full-chart path — afterwards the
caller's frame is the input with the derived `n_left` columns assigned —
while the placeholder path leaves the heap unchanged. -/
theorem rain_dry_mutation (h : List SummaryDF) (r : Nat) (df : SummaryDF) (p : String)
    (hread : readH h r = some df) :
    (((df.size > THRESHOLD_SUMMARY ∨ df.index.length > THRESHOLD_XAXES)
          ∧ pyLowerStr p ≠ "yearly") →
        (generate_summary_rain_dry h r (some p)).1 = h)
    ∧ (¬ ((df.size > THRESHOLD_SUMMARY ∨ df.index.length > THRESHOLD_XAXES)
          ∧ pyLowerStr p ≠ "yearly") →
        readH (generate_summary_rain_dry h r (some p)).1 r
          = some (addNLeftAll df)) := by
  have hlt : r < h.length := (List.getElem?_eq_some.mp hread).1
  have hset : readH (writeH h r (addNLeftAll df)) r = some (addNLeftAll df) := by
    unfold readH writeH
    rw [List.getElem?_set_self]
    simp [hlt]
  constructor
  · rintro ⟨hsize, hy⟩
    simp [generate_summary_rain_dry, readH] at hread ⊢
    simp [hread, hsize, pyLower, hy]
  · intro hnc
    by_cases hsize : df.size > THRESHOLD_SUMMARY ∨ df.index.length > THRESHOLD_XAXES
    · have hy : pyLowerStr p = "yearly" := by
        by_contra hy
        exact hnc ⟨hsize, hy⟩
      simp only [generate_summary_rain_dry, readH] at hread ⊢
      rw [hread]
      simp only [hsize, if_true, pyLower, hy, ne_eq, not_true_eq_false, if_false,
        buildRainDryChart]
      split <;> exact hset
    · simp only [generate_summary_rain_dry, readH] at hread ⊢
      rw [hread]
      simp only [hsize, if_false, buildRainDryChart]
      split <;> (try split) <;> exact hset

/-- C9 witness: the amended statement at the concrete fixture — the
caller's frame after the call is the input plus the `n_left` columns. -/
theorem rain_dry_mutation_witness :
    readH (generate_summary_rain_dry [exRainDry] 0 (some "Monthly")).1 0
      = some (addNLeftAll exRainDry) :=
  (rain_dry_mutation [exRainDry] 0 exRainDry "Monthly" rfl).2 (by decide)

/-- C10: both cumulative-sum entry points operate on a copy: for every
heap and reference, after `generate_cumulative_sum` (which assigns its
sequential `number` column into the freshly allocated copy only) and after
`generate_scatter_with_trendline` (which only reads its copy), the
caller's frame at the original reference is unchanged. -/
theorem cumulative_entry_points_copy (h : List CumDF) (r : Nat) (df : CumDF)
    (dcol : Option String) (dcol2 : String) (hread : readH h r = some df) :
    readH (generate_cumulative_sum h r dcol).1 r = some df
    ∧ readH (generate_scatter_with_trendline h r dcol2).1 r = some df := by
  have hlt : r < h.length := (List.getElem?_eq_some.mp hread).1
  have hne : h.length ≠ r := by omega
  have happend : ∀ v : CumDF, (h ++ [v])[r]? = some df := by
    intro v
    rw [List.getElem?_append]
    simpa [hlt, readH] using hread
  constructor
  · simp only [generate_cumulative_sum, readH] at hread ⊢
    rw [hread]
    rcases dcol with _ | c
    · rcases hhead : df.cols.head? with _ | c0
      · simpa [hhead, readH] using hread
      · simp only [hhead, allocH, writeH]
        rw [List.getElem?_set_ne hne]
        exact happend df
    · simp only [allocH, writeH]
      rw [List.getElem?_set_ne hne]
      exact happend df
  · simp only [generate_scatter_with_trendline, readH] at hread ⊢
    rw [hread]
    simp only [allocH]
    exact happend df

/-- C10 witness: both entry points at the concrete two-column frame leave
the caller's frame untouched. -/
theorem cumulative_entry_points_copy_witness :
    readH (generate_cumulative_sum [exCumDf] 0 none).1 0 = some exCumDf
    ∧ readH (generate_scatter_with_trendline [exCumDf] 0 ("S1")).1 0 = some exCumDf :=
  cumulative_entry_points_copy [exCumDf] 0 exCumDf none ("S1") rfl

end PyFigure
